import Mathlib

/-!
Shallow embedding of the pyne nuclear-data module (src/unnamed/part_000,
`data.cpp`) for specification checking.

Modelling conventions:
* C++ `std::map<K,V>` tables are modelled as association lists `List (K × V)`
  kept sorted by key (std::map iterates in ascending key order); `findA` is
  `map::find`, `insertA` is `map::operator[] = v` (insert-or-assign keeping
  the sorted order), and range scans are `dropWhile`/`takeWhile` segments,
  which agree with `lower_bound`/`upper_bound` iteration on sorted lists.
* C++ `double` data values are modelled as `ℚ`: the module only stores,
  returns and compares these values, it never does arithmetic on them
  (the one exception, `pyne::b`, is not needed by any claim below).
* C++ `int` nuclide identifiers are modelled as `Int` with truncating
  division `Int.tdiv` / `Int.tmod`, the semantics of C++ `int` division
  (no value in play approaches the 32-bit bound).
* The HDF5 reference store is an external collaborator; a bulk loader's
  interaction with it is modelled as a value of
  `Except LoadErr (List row)` - either a load error (file missing / not
  HDF5) or the ordered record sequence of the table.  The same dataset is
  seen by every retry, which is faithful to the read-only on-disk file.
* Every global table starts empty; state is passed explicitly.
* A C++ call either returns a value, propagates a loader exception, or
  loops forever (re-loading an empty table); the three outcomes are
  `Res.ok`, `Res.err`, `Res.diverge`.
-/

/-- Loader failure modes: `pyne::FileNotFound` and `h5wrap::FileNotHDF5`. -/
inductive LoadErr where
  | fileNotFound
  | fileNotHDF5
deriving DecidableEq, Repr

/-- Outcome of one C++ call: normal return, propagated loader exception, or
divergence (the source re-loads an empty table forever in that situation). -/
inductive Res (α : Type) where
  | ok (a : α)
  | err (e : LoadErr)
  | diverge
deriving DecidableEq, Repr

/-- `std::map::find` on the sorted association-list model: the value bound to
the first occurrence of key `k`. -/
def findA {κ α : Type} [BEq κ] (l : List (κ × α)) (k : κ) : Option α :=
  match l.find? (fun kv => kv.1 == k) with
  | some kv => some kv.2
  | none => none

/-- `std::map::operator[] = v` on the sorted association-list model:
insert-or-assign, keeping the list sorted with respect to `lt`. -/
def insertA {κ α : Type} (lt : κ → κ → Bool) [BEq κ] (l : List (κ × α)) (k : κ) (v : α) :
    List (κ × α) :=
  match l with
  | [] => [(k, v)]
  | kv :: t =>
    if lt k kv.1 then (k, v) :: kv :: t
    else if k == kv.1 then (k, v) :: t
    else kv :: insertA lt t k v

theorem findA_insertA_self {κ α : Type} (lt : κ → κ → Bool) [BEq κ] [LawfulBEq κ]
    (l : List (κ × α)) (k : κ) (v : α) :
    findA (insertA lt l k v) k = some v := by
  induction l with
  | nil => simp [findA, insertA, List.find?]
  | cons kv t ih =>
    by_cases h1 : lt k kv.1 = true
    · simp [findA, insertA, h1, List.find?]
    · have h1f : lt k kv.1 = false := by revert h1; cases lt k kv.1 <;> simp
      by_cases h2 : k = kv.1
      · subst h2
        simp [findA, insertA, h1f, List.find?]
      · have h2b : (k == kv.1) = false := beq_false_of_ne h2
        have h2c : (kv.1 == k) = false := beq_false_of_ne (Ne.symm h2)
        simp only [insertA, h1f, if_false, Bool.false_eq_true, h2b]
        simp only [findA, List.find?, h2c] at ih ⊢
        exact ih

theorem findA_insertA_ne {κ α : Type} (lt : κ → κ → Bool) [BEq κ] [LawfulBEq κ]
    (l : List (κ × α)) (k1 k : κ) (v : α) (hne : k1 ≠ k) :
    findA (insertA lt l k1 v) k = findA l k := by
  have hb : (k1 == k) = false := beq_false_of_ne hne
  induction l with
  | nil => simp [findA, insertA, List.find?, hb]
  | cons kv t ih =>
    by_cases h1 : lt k1 kv.1 = true
    · simp [findA, insertA, h1, List.find?, hb]
    · have h1f : lt k1 kv.1 = false := by revert h1; cases lt k1 kv.1 <;> simp
      by_cases h2 : k1 = kv.1
      · subst h2
        simp [findA, insertA, h1f, List.find?, hb]
      · have h2b : (k1 == kv.1) = false := beq_false_of_ne h2
        simp only [insertA, h1f, h2b, if_false, Bool.false_eq_true]
        by_cases h3 : kv.1 = k
        · simp [findA, List.find?, h3]
        · have h3b : (kv.1 == k) = false := beq_false_of_ne h3
          simp only [findA, List.find?, h3b] at ih ⊢
          exact ih

/-- Strict order on plain integer keys. -/
def ltInt (a b : Int) : Bool := a < b

/-- Lexicographic strict order on `std::pair<int,int>` keys. -/
def ltPII (a b : Int × Int) : Bool := a.1 < b.1 || (a.1 == b.1 && a.2 < b.2)

/-- Lexicographic strict order on `std::pair<int,double>` keys. -/
def ltPIQ (a b : Int × ℚ) : Bool := a.1 < b.1 || (a.1 == b.1 && decide (a.2 < b.2))

/-- Modelled from the spec: the external `nucname` identifier service (spec
section 2 and section 6) normalizes a nuclide reference to a canonical
integer ID in the `zzzaaassss` encoding; on an argument that is already a
canonical ID the normalization is the identity. -/
def nucname_id (nuc : Int) : Int := nuc

/-- Modelled from the spec: `nucname` atomic-number extraction; in the
canonical `zzzaaassss` encoding the atomic number Z is the `zzz` prefix. -/
def nucname_znum (nuc : Int) : Int := nuc.tdiv 10000000

/-- Modelled from the spec: `nucname` mass-number extraction; in the
canonical `zzzaaassss` encoding the mass number A is the `aaa` digit block
(the source itself reads it as `(nucid/10000)%1000`). -/
def nucname_anum (nuc : Int) : Int := (nuc.tdiv 10000).tmod 1000

/-- One record of the `/atomic_mass` table (`pyne::atomic_mass_struct`). -/
structure atomic_mass_struct where
  nuc : Int
  mass : ℚ
  error : ℚ
  abund : ℚ
deriving DecidableEq, Repr

/-- The two tables filled by the shared atomic-mass loader:
`pyne::atomic_mass_map` and `pyne::natural_abund_map`. -/
structure AMState where
  atomic_mass_map : List (Int × ℚ)
  natural_abund_map : List (Int × ℚ)
deriving DecidableEq, Repr

/-- `pyne::_load_atomic_mass_map`: one pass over the `/atomic_mass` table,
writing `mass` into `atomic_mass_map` and `abund` into `natural_abund_map`
(last writer wins for duplicate keys). -/
def load_atomic_mass_map (S : AMState) (rows : List atomic_mass_struct) : AMState :=
  rows.foldl (fun acc r =>
    { atomic_mass_map := insertA ltInt acc.atomic_mass_map r.nuc r.mass,
      natural_abund_map := insertA ltInt acc.natural_abund_map r.nuc r.abund }) S

/-- Fuel-indexed body of `pyne::atomic_mass(int)`: cache hit, else bulk load
(failure swallowed by `catch(...)`) and retry, else ground-state recursion
for excited states, else the mass-number estimate; estimates are memoized
under the queried key.  The fuel only bounds the recursion: any terminating
C++ execution makes at most 3 nested calls (at most one load-retry, since
the dataset is fixed, then at most one excited-to-ground recursion, whose
callee takes no recursive branch), so with enough fuel, running out of fuel
(`Res.diverge`) happens exactly on the genuinely non-terminating C++ path
that re-loads a still-empty table forever. -/
def atomic_massF : Nat → Except LoadErr (List atomic_mass_struct) → AMState → Int →
    Res ℚ × AMState
  | 0, _, S, _ => (Res.diverge, S)
  | fuel + 1, src, S, nuc =>
    match findA S.atomic_mass_map nuc with
    | some v => (Res.ok v, S)
    | none =>
      if S.atomic_mass_map = [] then
        match src with
        | Except.ok rows =>
          -- try { _load_atomic_mass_map(); return atomic_mass(nuc); }
          atomic_massF fuel src (load_atomic_mass_map S rows) nuc
        | Except.error _ =>
          -- catch(...) {}: fall through to the estimation chain
          let nucid := nucname_id nuc
          if 0 < nucid.tmod 10000 then
            match atomic_massF fuel src S ((nucid.tdiv 10000) * 10000) with
            | (Res.ok aw, S2) =>
              (Res.ok aw,
                { S2 with atomic_mass_map := insertA ltInt S2.atomic_mass_map nuc aw })
            | (r, S2) => (r, S2)
          else
            let aw : ℚ := ((nucid.tdiv 10000).tmod 1000 : Int)
            (Res.ok aw, { S with atomic_mass_map := insertA ltInt S.atomic_mass_map nuc aw })
      else
        let nucid := nucname_id nuc
        if 0 < nucid.tmod 10000 then
          match atomic_massF fuel src S ((nucid.tdiv 10000) * 10000) with
          | (Res.ok aw, S2) =>
            (Res.ok aw,
              { S2 with atomic_mass_map := insertA ltInt S2.atomic_mass_map nuc aw })
          | (r, S2) => (r, S2)
        else
          let aw : ℚ := ((nucid.tdiv 10000).tmod 1000 : Int)
          (Res.ok aw, { S with atomic_mass_map := insertA ltInt S.atomic_mass_map nuc aw })

/-- `pyne::atomic_mass(int)`: fuel 4 strictly exceeds the deepest
terminating call chain (see `atomic_massF`). -/
def atomic_mass (src : Except LoadErr (List atomic_mass_struct)) (S : AMState) (nuc : Int) :
    Res ℚ × AMState :=
  atomic_massF 4 src S nuc

/-- Fuel-indexed body of `pyne::natural_abund(int)`: same shape as
`atomic_massF`, with fallback value 0.0 for ground states; in the
excited-state branch the source memoizes the recursively obtained abundance
into `atomic_mass_map`, not into `natural_abund_map` (source line 186). -/
def natural_abundF : Nat → Except LoadErr (List atomic_mass_struct) → AMState → Int →
    Res ℚ × AMState
  | 0, _, S, _ => (Res.diverge, S)
  | fuel + 1, src, S, nuc =>
    match findA S.natural_abund_map nuc with
    | some v => (Res.ok v, S)
    | none =>
      if S.natural_abund_map = [] then
        match src with
        | Except.ok rows =>
          -- try { _load_atomic_mass_map(); return natural_abund(nuc); }
          natural_abundF fuel src (load_atomic_mass_map S rows) nuc
        | Except.error _ =>
          -- catch(...) {}: fall through to the estimation chain
          let nucid := nucname_id nuc
          if 0 < nucid.tmod 10000 then
            match natural_abundF fuel src S ((nucid.tdiv 10000) * 10000) with
            | (Res.ok na, S2) =>
              -- source line 186: atomic_mass_map[nuc] = na  (not natural_abund_map)
              (Res.ok na,
                { S2 with atomic_mass_map := insertA ltInt S2.atomic_mass_map nuc na })
            | (r, S2) => (r, S2)
          else
            (Res.ok 0, { S with natural_abund_map := insertA ltInt S.natural_abund_map nuc 0 })
      else
        let nucid := nucname_id nuc
        if 0 < nucid.tmod 10000 then
          match natural_abundF fuel src S ((nucid.tdiv 10000) * 10000) with
          | (Res.ok na, S2) =>
            (Res.ok na,
              { S2 with atomic_mass_map := insertA ltInt S2.atomic_mass_map nuc na })
          | (r, S2) => (r, S2)
        else
          (Res.ok 0, { S with natural_abund_map := insertA ltInt S.natural_abund_map nuc 0 })

/-- `pyne::natural_abund(int)`: fuel 4 strictly exceeds the deepest
terminating call chain (see `atomic_massF`). -/
def natural_abund (src : Except LoadErr (List atomic_mass_struct)) (S : AMState) (nuc : Int) :
    Res ℚ × AMState :=
  natural_abundF 4 src S nuc

/-- `extra_types::complex_t`: a complex scattering-length value. -/
structure complex_t where
  re : ℚ
  im : ℚ
deriving DecidableEq, Repr

/-- One record of the `/neutron/scattering_lengths` table
(`pyne::scattering_lengths_struct`). -/
structure scattering_lengths_struct where
  nuc : Int
  b_coherent : complex_t
  b_incoherent : complex_t
  xs_coherent : ℚ
  xs_incoherent : ℚ
  xs : ℚ
deriving DecidableEq, Repr

/-- The two tables filled by the shared scattering-length loader:
`pyne::b_coherent_map` and `pyne::b_incoherent_map`. -/
structure ScatState where
  b_coherent_map : List (Int × complex_t)
  b_incoherent_map : List (Int × complex_t)
deriving DecidableEq, Repr

/-- `pyne::_load_scattering_lengths`: one pass over the table, filling both
complex-valued maps. -/
def load_scattering_lengths (S : ScatState) (rows : List scattering_lengths_struct) :
    ScatState :=
  rows.foldl (fun acc r =>
    { b_coherent_map := insertA ltInt acc.b_coherent_map r.nuc r.b_coherent,
      b_incoherent_map := insertA ltInt acc.b_incoherent_map r.nuc r.b_incoherent }) S

/-- The two `while (nuc_iter != nuc_end)` scans of `pyne::b_coherent`:
first value in iteration order whose key satisfies `p`. -/
def scan_first {α : Type} (p : Int → Bool) : List (Int × α) → Option α
  | [] => none
  | kv :: t => if p kv.1 then some kv.2 else scan_first p t

/-- Fuel-indexed body of `pyne::b_coherent(int)`: cache hit, else bulk load
(NOT wrapped in try/catch - a load error propagates) and retry, else first
A-number match in table order, else first Z-number match, else complex zero;
the chosen fallback is memoized under the queried key.  Any terminating C++
execution makes at most 2 nested calls; running out of fuel models the
re-load-forever path (see `atomic_massF`). -/
def b_coherentF : Nat → Except LoadErr (List scattering_lengths_struct) → ScatState → Int →
    Res complex_t × ScatState
  | 0, _, S, _ => (Res.diverge, S)
  | fuel + 1, src, S, nuc =>
    match findA S.b_coherent_map nuc with
    | some v => (Res.ok v, S)
    | none =>
      if S.b_coherent_map = [] then
        match src with
        | Except.error e => (Res.err e, S)
        | Except.ok rows => b_coherentF fuel src (load_scattering_lengths S rows) nuc
      else
        let nucid := nucname_id nuc
        let znum := nucname_znum nucid
        let anum := nucname_anum nucid
        match scan_first (fun k => nucname_anum k == anum) S.b_coherent_map with
        | some bc =>
          (Res.ok bc, { S with b_coherent_map := insertA ltInt S.b_coherent_map nuc bc })
        | none =>
          match scan_first (fun k => nucname_znum k == znum) S.b_coherent_map with
          | some bc =>
            (Res.ok bc, { S with b_coherent_map := insertA ltInt S.b_coherent_map nuc bc })
          | none =>
            (Res.ok ⟨0, 0⟩,
              { S with b_coherent_map := insertA ltInt S.b_coherent_map nuc ⟨0, 0⟩ })

/-- `pyne::b_coherent(int)`: fuel 4 strictly exceeds the deepest terminating
call chain (see `b_coherentF`). -/
def b_coherent (src : Except LoadErr (List scattering_lengths_struct)) (S : ScatState)
    (nuc : Int) : Res complex_t × ScatState :=
  b_coherentF 4 src S nuc

/-- One record of the `/neutron/wimsd_fission_products` table
(`pyne::wimsdfpy_struct`). -/
structure wimsdfpy_struct where
  from_nuc : Int
  to_nuc : Int
  yields : ℚ
deriving DecidableEq, Repr

/-- One record of the `/neutron/nds_fission_products` table
(`pyne::ndsfpy_struct`). -/
structure ndsfpy_struct where
  from_nuc : Int
  to_nuc : Int
  yield_thermal : ℚ
  yield_thermal_err : ℚ
  yield_fast : ℚ
  yield_fast_err : ℚ
  yield_14MeV : ℚ
  yield_14MeV_err : ℚ
deriving DecidableEq, Repr

/-- The value type stored in `pyne::ndsfpy_data` (`pyne::ndsfpysub_struct`). -/
structure ndsfpysub_struct where
  yield_thermal : ℚ
  yield_thermal_err : ℚ
  yield_fast : ℚ
  yield_fast_err : ℚ
  yield_14MeV : ℚ
  yield_14MeV_err : ℚ
deriving DecidableEq, Repr

/-- The two fission-product-yield tables: `pyne::wimsdfpy_data` and
`pyne::ndsfpy_data`. -/
structure FPState where
  wimsdfpy_data : List ((Int × Int) × ℚ)
  ndsfpy_data : List ((Int × Int) × ndsfpysub_struct)
deriving DecidableEq, Repr

/-- `pyne::_load_wimsdfpy`: fills the WIMS yield table keyed by
(from_nuc, to_nuc). -/
def load_wimsdfpy (S : FPState) (rows : List wimsdfpy_struct) : FPState :=
  rows.foldl (fun acc r =>
    { acc with
      wimsdfpy_data := insertA ltPII acc.wimsdfpy_data (r.from_nuc, r.to_nuc) r.yields }) S

/-- `pyne::_load_ndsfpy`: fills the NDS yield table keyed by
(from_nuc, to_nuc). -/
def load_ndsfpy (S : FPState) (rows : List ndsfpy_struct) : FPState :=
  rows.foldl (fun acc r =>
    { acc with
      ndsfpy_data := insertA ltPII acc.ndsfpy_data (r.from_nuc, r.to_nuc)
        ⟨r.yield_thermal, r.yield_thermal_err, r.yield_fast, r.yield_fast_err,
          r.yield_14MeV, r.yield_14MeV_err⟩ }) S

/-- Fuel-indexed body of `pyne::fpyield(pair, source, get_error)`:
`source==0` looks in the WIMS table (ignoring `get_error`); other sources
look in the NDS table, a switch selecting the thermal / fast / 14 MeV value
or error (falling through, with no return, for sources outside 1..3).  On
miss it loads the WIMS table if `source==0` and it is empty, else the NDS
table if that is empty (load errors propagate - there is no try/catch), and
retries; if neither reload applies the final fallback returns 0.0 and
memoizes it into the WIMS table.  Any terminating C++ execution makes at
most 3 nested calls; running out of fuel models the re-load-forever path
(see `atomic_massF`). -/
def fpyieldF : Nat → Except LoadErr (List wimsdfpy_struct) →
    Except LoadErr (List ndsfpy_struct) → FPState → Int × Int → Int → Bool →
    Res ℚ × FPState
  | 0, _, _, S, _, _, _ => (Res.diverge, S)
  | fuel + 1, srcW, srcN, S, from_to, source, get_error =>
    let hit : Option ℚ :=
      if source == 0 then
        findA S.wimsdfpy_data from_to
      else
        match findA S.ndsfpy_data from_to with
        | some r =>
          if source == 1 then some (if get_error then r.yield_thermal_err else r.yield_thermal)
          else if source == 2 then some (if get_error then r.yield_fast_err else r.yield_fast)
          else if source == 3 then some (if get_error then r.yield_14MeV_err else r.yield_14MeV)
          else none
        | none => none
    match hit with
    | some v => (Res.ok v, S)
    | none =>
      if source = 0 ∧ S.wimsdfpy_data = [] then
        match srcW with
        | Except.error e => (Res.err e, S)
        | Except.ok rows => fpyieldF fuel srcW srcN (load_wimsdfpy S rows) from_to 0 get_error
      else if S.ndsfpy_data = [] then
        match srcN with
        | Except.error e => (Res.err e, S)
        | Except.ok rows =>
          fpyieldF fuel srcW srcN (load_ndsfpy S rows) from_to source get_error
      else
        (Res.ok 0, { S with wimsdfpy_data := insertA ltPII S.wimsdfpy_data from_to 0 })

/-- `pyne::fpyield(pair, source, get_error)`: fuel 4 strictly exceeds the
deepest terminating call chain (see `fpyieldF`). -/
def fpyield (srcW : Except LoadErr (List wimsdfpy_struct))
    (srcN : Except LoadErr (List ndsfpy_struct)) (S : FPState) (from_to : Int × Int)
    (source : Int) (get_error : Bool) : Res ℚ × FPState :=
  fpyieldF 4 srcW srcN S from_to source get_error

/-- One record of the `/decay/half_life` table
(`pyne::half_life_decay_struct`). -/
structure half_life_decay_struct where
  from_nuc : Int
  level : ℚ
  to_nuc : Int
  half_life : ℚ
  decay_const : ℚ
  branch_ratio : ℚ
deriving DecidableEq, Repr

/-- The five tables filled by the shared decay loader. -/
structure DecayState where
  half_life_map : List (Int × ℚ)
  decay_const_map : List (Int × ℚ)
  branch_ratio_map : List ((Int × Int) × ℚ)
  state_energy_map : List (Int × ℚ)
  decay_children_map : List (Int × List Int)
deriving DecidableEq, Repr

/-- `std::set<int>::insert` on the sorted-distinct-list model. -/
def setInsert (s : List Int) (x : Int) : List Int :=
  match s with
  | [] => [x]
  | y :: t => if x < y then x :: y :: t else if x == y then y :: t else y :: setInsert t x

/-- `pyne::_load_half_life_decay`: one pass over the decay table, giving
precedence to ground-state rows (`level == 0.0`) or the first row seen for a
key, unconditionally overwriting `state_energy_map`, and accumulating
daughters with non-zero decay constants into `decay_children_map`. -/
def load_half_life_decay (S : DecayState) (rows : List half_life_decay_struct) : DecayState :=
  rows.foldl (fun acc r =>
    { half_life_map :=
        if (findA acc.half_life_map r.from_nuc).isNone || r.level == (0 : ℚ) then
          insertA ltInt acc.half_life_map r.from_nuc r.half_life
        else acc.half_life_map,
      decay_const_map :=
        if (findA acc.decay_const_map r.from_nuc).isNone || r.level == (0 : ℚ) then
          insertA ltInt acc.decay_const_map r.from_nuc r.decay_const
        else acc.decay_const_map,
      branch_ratio_map :=
        if (findA acc.branch_ratio_map (r.from_nuc, r.to_nuc)).isNone || r.level == (0 : ℚ) then
          insertA ltPII acc.branch_ratio_map (r.from_nuc, r.to_nuc) r.branch_ratio
        else acc.branch_ratio_map,
      state_energy_map := insertA ltInt acc.state_energy_map r.from_nuc r.level,
      decay_children_map :=
        if r.decay_const == (0 : ℚ) then acc.decay_children_map
        else insertA ltInt acc.decay_children_map r.from_nuc
          (setInsert ((findA acc.decay_children_map r.from_nuc).getD []) r.to_nuc) }) S

/-- Fuel-indexed body of `pyne::decay_const(int)`: cache hit, else bulk load
(NOT wrapped in try/catch - a load error propagates) and retry, else
fallback 0.0 memoized under the key.  Any terminating C++ execution makes at
most 2 nested calls; running out of fuel models the re-load-forever path
(see `atomic_massF`). -/
def decay_constF : Nat → Except LoadErr (List half_life_decay_struct) → DecayState → Int →
    Res ℚ × DecayState
  | 0, _, S, _ => (Res.diverge, S)
  | fuel + 1, src, S, nuc =>
    match findA S.decay_const_map nuc with
    | some v => (Res.ok v, S)
    | none =>
      if S.decay_const_map = [] then
        match src with
        | Except.error e => (Res.err e, S)
        | Except.ok rows => decay_constF fuel src (load_half_life_decay S rows) nuc
      else (Res.ok 0, { S with decay_const_map := insertA ltInt S.decay_const_map nuc 0 })

/-- `pyne::decay_const(int)`: fuel 4 strictly exceeds the deepest
terminating call chain (see `decay_constF`). -/
def decay_const (src : Except LoadErr (List half_life_decay_struct)) (S : DecayState)
    (nuc : Int) : Res ℚ × DecayState :=
  decay_constF 4 src S nuc

/-- Fuel-indexed body of `pyne::branch_ratio(pair)`: cache hit, else bulk
load (NOT wrapped in try/catch - a load error propagates) and retry, else
fallback 0.0 memoized under the pair. -/
def branch_ratioF : Nat → Except LoadErr (List half_life_decay_struct) → DecayState →
    Int × Int → Res ℚ × DecayState
  | 0, _, S, _ => (Res.diverge, S)
  | fuel + 1, src, S, from_to =>
    match findA S.branch_ratio_map from_to with
    | some v => (Res.ok v, S)
    | none =>
      if S.branch_ratio_map = [] then
        match src with
        | Except.error e => (Res.err e, S)
        | Except.ok rows => branch_ratioF fuel src (load_half_life_decay S rows) from_to
      else
        (Res.ok 0, { S with branch_ratio_map := insertA ltPII S.branch_ratio_map from_to 0 })

/-- `pyne::branch_ratio(pair)`: fuel 4 strictly exceeds the deepest
terminating call chain (see `decay_constF`). -/
def branch_ratio (src : Except LoadErr (List half_life_decay_struct)) (S : DecayState)
    (from_to : Int × Int) : Res ℚ × DecayState :=
  branch_ratioF 4 src S from_to

/-- Fuel-indexed body of `pyne::decay_children(int)`: cache hit, else bulk
load (NOT wrapped in try/catch - a load error propagates) and retry, else
fallback empty set memoized under the key. -/
def decay_childrenF : Nat → Except LoadErr (List half_life_decay_struct) → DecayState →
    Int → Res (List Int) × DecayState
  | 0, _, S, _ => (Res.diverge, S)
  | fuel + 1, src, S, nuc =>
    match findA S.decay_children_map nuc with
    | some v => (Res.ok v, S)
    | none =>
      if S.decay_children_map = [] then
        match src with
        | Except.error e => (Res.err e, S)
        | Except.ok rows => decay_childrenF fuel src (load_half_life_decay S rows) nuc
      else
        (Res.ok [], { S with decay_children_map := insertA ltInt S.decay_children_map nuc [] })

/-- `pyne::decay_children(int)`: fuel 4 strictly exceeds the deepest
terminating call chain (see `decay_constF`). -/
def decay_children (src : Except LoadErr (List half_life_decay_struct)) (S : DecayState)
    (nuc : Int) : Res (List Int) × DecayState :=
  decay_childrenF 4 src S nuc

/-- One record of the `/decay/level_list` table (`pyne::level_struct`). -/
structure level_struct where
  nuc_id : Int
  level : ℚ
  half_life : ℚ
  metastable : ℚ
deriving DecidableEq, Repr

/-- `pyne::_load_level_data`: fills `pyne::level_data` keyed by `nuc_id`. -/
def load_level_data (ld : List (Int × level_struct)) (rows : List level_struct) :
    List (Int × level_struct) :=
  rows.foldl (fun acc r => insertA ltInt acc r.nuc_id r) ld

/-- `pyne::state_energy(int)`: cache hit returns the `level` field.  On a
miss with an empty table it loads (an error propagates, there is no
try/catch) and then calls itself - but DISCARDS the result (the source lacks
the `return` its sibling `half_life` has), so the post-load call always
returns 0.0.  A miss on a non-empty table returns 0.0 without memoizing. -/
def state_energy (src : Except LoadErr (List level_struct)) (ld : List (Int × level_struct))
    (nuc : Int) : Res ℚ × List (Int × level_struct) :=
  match findA ld nuc with
  | some r => (Res.ok r.level, ld)
  | none =>
    if ld = [] then
      match src with
      | Except.error e => (Res.err e, ld)
      | Except.ok rows =>
        if load_level_data ld rows = [] then
          -- the discarded inner call would re-load the still-empty table forever
          (Res.diverge, load_level_data ld rows)
        else
          -- the inner state_energy(nuc) call terminates without modifying the
          -- table and its value is thrown away; the function returns 0.0
          (Res.ok 0, load_level_data ld rows)
    else (Res.ok 0, ld)

/-- `pyne::metastable_id(int, int)`: 0 for `m == 0`; otherwise compute
`nostate = (nuc/1000)*1000`, load the level table if empty (an error
propagates), then scan the keys in `[nostate, nostate+9999]` in ascending
order and return the `nuc_id` field of the first entry whose `metastable`
field equals `m`, else 0. -/
def metastable_id (src : Except LoadErr (List level_struct)) (ld : List (Int × level_struct))
    (nuc m : Int) : Res Int × List (Int × level_struct) :=
  if m == 0 then (Res.ok 0, ld)
  else
    let nostate := (nuc.tdiv 1000) * 1000
    match (if ld.isEmpty then
            (match src with
             | Except.error e => Except.error e
             | Except.ok rows => Except.ok (load_level_data ld rows))
           else Except.ok ld : Except LoadErr (List (Int × level_struct))) with
    | Except.error e => (Res.err e, ld)
    | Except.ok ld2 =>
      let seg := (ld2.dropWhile (fun kv => decide (kv.1 < nostate))).takeWhile
        (fun kv => decide (kv.1 ≤ nostate + 9999))
      match seg.find? (fun kv => kv.2.metastable == (m : ℚ)) with
      | some kv => (Res.ok kv.2.nuc_id, ld2)
      | none => (Res.ok 0, ld2)

/-- One record of the `/decay/decays` table (`pyne::decay_struct`). -/
structure decay_struct where
  parent : Int
  daughter : Int
  decay : String
  half_life : ℚ
  half_life_error : ℚ
  branch_ratio : ℚ
  photon_branch_ratio : ℚ
  photon_branch_ratio_error : ℚ
  beta_branch_ratio : ℚ
  beta_branch_ratio_error : ℚ
deriving DecidableEq, Repr

/-- `pyne::_load_data<decay_struct>`: fills `pyne::decay_data` keyed by
(parent, daughter). -/
def load_decay_data (d : List ((Int × Int) × decay_struct)) (rows : List decay_struct) :
    List ((Int × Int) × decay_struct) :=
  rows.foldl (fun acc r => insertA ltPII acc (r.parent, r.daughter) r) d

/-- The C++ literal `9999999999` after conversion to a 32-bit `int` inside
`std::make_pair(parent, 9999999999)` (the low 32 bits, a positive value). -/
def INT9999999999 : Int := 1410065407

/-- The range overload
`pyne::data_access<T, decay_struct>(int parent, size_t, map<pair<int,int>, decay_struct>&)`
(source lines 1130-1149).  It iterates from `lower_bound((parent, 0))` to
`upper_bound((parent, 9999999999))`, but the loop body reads
`nuc_iter->second` - the unmoved lower bound - instead of `it->second`, so
it pushes the FIRST record's projected field once per record in the range.
If the map is empty after the (unchecked) scan it loads and retries. -/
def data_access_decay_parent {T : Type} (proj : decay_struct → T)
    (src : Except LoadErr (List decay_struct)) (d : List ((Int × Int) × decay_struct))
    (parent : Int) : Res (List T) × List ((Int × Int) × decay_struct) :=
  let scan : List ((Int × Int) × decay_struct) → List T := fun dd =>
    let rest := dd.dropWhile (fun kv => ltPII kv.1 (parent, 0))
    let seg := rest.takeWhile (fun kv => !ltPII (parent, INT9999999999) kv.1)
    match rest with
    | [] => []
    | kv0 :: _ => List.replicate seg.length (proj kv0.2)
  if d = [] then
    match src with
    | Except.error e => (Res.err e, d)
    | Except.ok rows =>
      if load_decay_data d rows = [] then (Res.diverge, load_decay_data d rows)
      else (Res.ok (scan (load_decay_data d rows)), load_decay_data d rows)
  else (Res.ok (scan d), d)

/-- `pyne::decay_half_lifes(int)`: two range projections (half_life and
half_life_error) zipped into pairs. -/
def decay_half_lifes (src : Except LoadErr (List decay_struct))
    (d : List ((Int × Int) × decay_struct)) (parent : Int) :
    Res (List (ℚ × ℚ)) × List ((Int × Int) × decay_struct) :=
  match data_access_decay_parent (fun r => r.half_life) src d parent with
  | (Res.ok part1, d1) =>
    match data_access_decay_parent (fun r => r.half_life_error) src d1 parent with
    | (Res.ok part2, d2) => (Res.ok (part1.zip part2), d2)
    | (Res.err e, d2) => (Res.err e, d2)
    | (Res.diverge, d2) => (Res.diverge, d2)
  | (Res.err e, d1) => (Res.err e, d1)
  | (Res.diverge, d1) => (Res.diverge, d1)

/-- `pyne::decay_branch_ratios(int)`: a single range projection whose byte
offset is `offsetof(decay_struct, half_life)` - the half-life field, not the
branch-ratio field (source line 1172). -/
def decay_branch_ratios (src : Except LoadErr (List decay_struct))
    (d : List ((Int × Int) × decay_struct)) (parent : Int) :
    Res (List ℚ) × List ((Int × Int) × decay_struct) :=
  data_access_decay_parent (fun r => r.half_life) src d parent

/-- One record of the `/decay/gammas` table (`pyne::gamma_struct`). -/
structure gamma_struct where
  energy : ℚ
  energy_err : ℚ
  photon_intensity : ℚ
  photon_intensity_err : ℚ
  conv_intensity : ℚ
  conv_intensity_err : ℚ
  total_intensity : ℚ
  total_intensity_err : ℚ
  from_nuc : Int
  to_nuc : Int
  parent_nuc : Int
  k_conv_e : ℚ
  l_conv_e : ℚ
  m_conv_e : ℚ
deriving DecidableEq, Repr

/-- `pyne::_load_data<gamma_struct>`: fills `pyne::gamma_data` keyed by
(parent_nuc, energy). -/
def load_gamma_data (d : List ((Int × ℚ) × gamma_struct)) (rows : List gamma_struct) :
    List ((Int × ℚ) × gamma_struct) :=
  rows.foldl (fun acc r => insertA ltPIQ acc (r.parent_nuc, r.energy) r) d

/-- The range overload
`pyne::data_access<T, gamma_struct>(int parent, size_t, map<pair<int,double>, gamma_struct>&)`
(source lines 1284-1303).  Against a map keyed by (parent_nuc, energy) it
iterates from `lower_bound(make_pair(0, parent))` to
`upper_bound(make_pair(DBL_MAX, parent))` - the pair components are swapped
relative to the key layout, and converting `DBL_MAX` to `int` is undefined
behaviour, modelled by the unconstrained parameter `castDblMax`.  As in the
decay overload, the loop body reads `nuc_iter->second` (the unmoved lower
bound) instead of `it->second`.  If the map is empty it loads and retries. -/
def data_access_gamma_parent {T : Type} (proj : gamma_struct → T) (castDblMax : Int)
    (src : Except LoadErr (List gamma_struct)) (d : List ((Int × ℚ) × gamma_struct))
    (parent : Int) : Res (List T) × List ((Int × ℚ) × gamma_struct) :=
  let scan : List ((Int × ℚ) × gamma_struct) → List T := fun dd =>
    let rest := dd.dropWhile (fun kv => ltPIQ kv.1 ((0 : Int), (parent : ℚ)))
    let seg := rest.takeWhile (fun kv => !ltPIQ (castDblMax, (parent : ℚ)) kv.1)
    match rest with
    | [] => []
    | kv0 :: _ => List.replicate seg.length (proj kv0.2)
  if d = [] then
    match src with
    | Except.error e => (Res.err e, d)
    | Except.ok rows =>
      if load_gamma_data d rows = [] then (Res.diverge, load_gamma_data d rows)
      else (Res.ok (scan (load_gamma_data d rows)), load_gamma_data d rows)
  else (Res.ok (scan d), d)

/-- `pyne::gamma_energy(int)`: two range projections (energy and energy_err)
zipped into pairs. -/
def gamma_energy (castDblMax : Int) (src : Except LoadErr (List gamma_struct))
    (d : List ((Int × ℚ) × gamma_struct)) (parent : Int) :
    Res (List (ℚ × ℚ)) × List ((Int × ℚ) × gamma_struct) :=
  match data_access_gamma_parent (fun r => r.energy) castDblMax src d parent with
  | (Res.ok part1, d1) =>
    match data_access_gamma_parent (fun r => r.energy_err) castDblMax src d1 parent with
    | (Res.ok part2, d2) => (Res.ok (part1.zip part2), d2)
    | (Res.err e, d2) => (Res.err e, d2)
    | (Res.diverge, d2) => (Res.diverge, d2)
  | (Res.err e, d1) => (Res.err e, d1)
  | (Res.diverge, d1) => (Res.diverge, d1)

/-- Stated from the claim (C1, spec section 8 "Range query correctness"): the
pairs `gamma_energy(parent)` should return - the (energy, energy_err) fields
of exactly the records keyed by `parent`, in the table's ascending key
order. -/
def gamma_energy_claim (d : List ((Int × ℚ) × gamma_struct)) (parent : Int) :
    List (ℚ × ℚ) :=
  (d.filter (fun kv => kv.1.1 == parent)).map (fun kv => (kv.2.energy, kv.2.energy_err))

/-- Stated from the claim (C4): scan, in ascending key order, the entries of
the level table whose IDs lie in the 10,000-wide block starting at `g`, and
return the `nuc_id` field of the first whose metastable field equals `m`,
else 0. -/
def metastable_block_scan (ld : List (Int × level_struct)) (g m : Int) : Int :=
  match (ld.filter (fun kv => decide (g ≤ kv.1) && decide (kv.1 ≤ g + 9999))).find?
      (fun kv => kv.2.metastable == (m : ℚ)) with
  | some kv => kv.2.nuc_id
  | none => 0

/-- Stated from the claim (C4): the claim's described behaviour of
`metastable_id` - the block belonging to the ground-state prefix of `id`
(the id with its 4-digit state field zeroed). -/
def metastable_id_claim (ld : List (Int × level_struct)) (nuc m : Int) : Int :=
  metastable_block_scan ld ((nuc.tdiv 10000) * 10000) m

/-- Concrete gamma record for the C1 counterexample table: energy 1,
energy_err 10, parent 10. -/
def gRow1 : gamma_struct := ⟨1, 10, 0, 0, 0, 0, 0, 0, 10, 8, 10, 0, 0, 0⟩

/-- Concrete gamma record for the C1 counterexample table: energy 2,
energy_err 20, parent 10. -/
def gRow2 : gamma_struct := ⟨2, 20, 0, 0, 0, 0, 0, 0, 10, 8, 10, 0, 0, 0⟩

/-- Concrete two-record gamma table (sorted by key) whose records both belong
to parent 10. -/
def gTable : List ((Int × ℚ) × gamma_struct) := [((10, 1), gRow1), ((10, 2), gRow2)]

/-- Stated from the claim (C6): the fallback value `b_coherent` should pick
for an absent id - the value of the first entry in ascending key order whose
mass number matches, else the first whose atomic number matches, else the
complex zero. -/
def b_coherent_claim_value (bc : List (Int × complex_t)) (nuc : Int) : complex_t :=
  match bc.find? (fun kv => nucname_anum kv.1 == nucname_anum nuc) with
  | some kv => kv.2
  | none =>
    match bc.find? (fun kv => nucname_znum kv.1 == nucname_znum nuc) with
    | some kv => kv.2
    | none => ⟨0, 0⟩

/-!  Helper lemmas about the association-list and scan models. -/

theorem scan_first_eq_find {α : Type} (p : Int → Bool) (l : List (Int × α)) :
    scan_first p l = Option.map Prod.snd (l.find? (fun kv => p kv.1)) := by
  induction l with
  | nil => rfl
  | cons kv t ih =>
    by_cases h : p kv.1 = true
    · simp [scan_first, List.find?, h]
    · have hf : p kv.1 = false := by revert h; cases p kv.1 <;> simp
      simp [scan_first, List.find?, hf, ih]

/-- On a list sorted strictly by key, the `lower_bound`/`upper_bound`
iteration segment (dropWhile below `lo`, then takeWhile up to `hi`) is the
set of entries with key in `[lo, hi]`, in order. -/
theorem dropWhile_takeWhile_eq_filter {α : Type} (lo hi : Int) (l : List (Int × α))
    (hs : l.Pairwise (fun a b => a.1 < b.1)) :
    (l.dropWhile (fun kv => decide (kv.1 < lo))).takeWhile (fun kv => decide (kv.1 ≤ hi)) =
      l.filter (fun kv => decide (lo ≤ kv.1) && decide (kv.1 ≤ hi)) := by
  induction l with
  | nil => rfl
  | cons kv t ih =>
    obtain ⟨hhead, htail⟩ := List.pairwise_cons.mp hs
    by_cases hlo : kv.1 < lo
    · have hnle : ¬ lo ≤ kv.1 := not_le.mpr hlo
      simp only [List.dropWhile_cons, List.filter_cons]
      simp only [hlo, hnle, decide_True, decide_False, if_true, Bool.false_and,
        Bool.false_eq_true, if_false]
      exact ih htail
    · have hge : lo ≤ kv.1 := not_lt.mp hlo
      have hdt : t.dropWhile (fun kv2 => decide (kv2.1 < lo)) = t := by
        cases t with
        | nil => rfl
        | cons b t2 =>
          have hb : ¬ b.1 < lo := by
            have := hhead b (by simp)
            omega
          simp [List.dropWhile_cons, hb]
      by_cases hhi : kv.1 ≤ hi
      · have hkeep : t.takeWhile (fun kv2 => decide (kv2.1 ≤ hi)) =
            t.filter (fun kv2 => decide (lo ≤ kv2.1) && decide (kv2.1 ≤ hi)) := by
          have := ih htail
          rwa [hdt] at this
        simp only [List.dropWhile_cons, List.filter_cons]
        simp only [hlo, decide_False, Bool.false_eq_true, if_false]
        rw [List.takeWhile_cons]
        simp only [hhi, hge, decide_True, if_true, Bool.true_and, List.cons.injEq, true_and]
        exact hkeep
      · have hfil : t.filter (fun kv2 => decide (lo ≤ kv2.1) && decide (kv2.1 ≤ hi)) = [] := by
          rw [List.filter_eq_nil_iff]
          intro b hb
          have := hhead b hb
          simp only [Bool.and_eq_true, decide_eq_true_eq, not_and]
          intro _
          omega
        simp only [List.dropWhile_cons, List.filter_cons]
        simp only [hlo, decide_False, Bool.false_eq_true, if_false]
        rw [List.takeWhile_cons]
        simp only [hhi, hge, decide_True, decide_False, Bool.false_eq_true, if_false,
          Bool.and_false]
        exact hfil.symm

/-- Evaluation of `atomic_massF` at a ground-state key (`tmod 10000 = 0`) on
a non-empty table: found value, or the memoized mass-number estimate. -/
theorem atomic_massF_ground (fuel : Nat) (src : Except LoadErr (List atomic_mass_struct))
    (S : AMState) (g : Int) (h2 : S.atomic_mass_map ≠ []) (hg : g.tmod 10000 = 0) :
    atomic_massF (fuel + 1) src S g =
      match findA S.atomic_mass_map g with
      | some w => (Res.ok w, S)
      | none =>
        (Res.ok (((g.tdiv 10000).tmod 1000 : Int) : ℚ),
          { S with atomic_mass_map :=
              insertA ltInt S.atomic_mass_map g (((g.tdiv 10000).tmod 1000 : Int) : ℚ) }) := by
  cases hf : findA S.atomic_mass_map g with
  | some w => simp [atomic_massF, hf]
  | none => simp [atomic_massF, hf, h2, nucname_id, hg]

/-- Evaluation of `natural_abundF` at a ground-state key on a non-empty
table: found value, or the memoized 0.0 fallback. -/
theorem natural_abundF_ground (fuel : Nat) (src : Except LoadErr (List atomic_mass_struct))
    (S : AMState) (g : Int) (h2 : S.natural_abund_map ≠ []) (hg : g.tmod 10000 = 0) :
    natural_abundF (fuel + 1) src S g =
      match findA S.natural_abund_map g with
      | some w => (Res.ok w, S)
      | none =>
        (Res.ok 0, { S with natural_abund_map := insertA ltInt S.natural_abund_map g 0 }) := by
  cases hf : findA S.natural_abund_map g with
  | some w => simp [natural_abundF, hf]
  | none => simp [natural_abundF, hf, h2, nucname_id, hg]

/-- Claim C5: for an excited-state id (non-zero state field) absent from the
non-empty (loaded) atomic-mass table, `atomic_mass(id)` returns exactly the
value of `atomic_mass` at the ground-state id, memoizes it in the
atomic-mass table under the excited id, and the cache then contains the
excited key. -/
theorem atomic_mass_excited_ground (src : Except LoadErr (List atomic_mass_struct))
    (S : AMState) (nuc : Int)
    (h1 : findA S.atomic_mass_map nuc = none)
    (h2 : S.atomic_mass_map ≠ [])
    (h3 : 0 < nuc.tmod 10000) :
    ∃ v S2, atomic_mass src S ((nuc.tdiv 10000) * 10000) = (Res.ok v, S2) ∧
      atomic_mass src S nuc =
        (Res.ok v, { S2 with atomic_mass_map := insertA ltInt S2.atomic_mass_map nuc v }) ∧
      findA (insertA ltInt S2.atomic_mass_map nuc v) nuc = some v := by
  have hg : ((nuc.tdiv 10000) * 10000).tmod 10000 = 0 := Int.mul_tmod_left _ _
  cases hf : findA S.atomic_mass_map ((nuc.tdiv 10000) * 10000) with
  | some w =>
    have hground : atomic_mass src S ((nuc.tdiv 10000) * 10000) = (Res.ok w, S) := by
      simp [atomic_mass, atomic_massF, hf]
    exact ⟨w, S, hground,
      by simp [atomic_mass, atomic_massF, h1, h2, h3, hf, nucname_id],
      findA_insertA_self _ _ _ _⟩
  | none =>
    have hground : atomic_mass src S ((nuc.tdiv 10000) * 10000) =
        (Res.ok (((nuc.tdiv 10000).tmod 1000 : Int) : ℚ),
          AMState.mk
            (insertA ltInt S.atomic_mass_map ((nuc.tdiv 10000) * 10000)
              (((nuc.tdiv 10000).tmod 1000 : Int) : ℚ))
            S.natural_abund_map) := by
      simp [atomic_mass, atomic_massF, hf, h2, nucname_id, hg]
    exact ⟨_, _, hground,
      by simp [atomic_mass, atomic_massF, h1, h2, h3, hf, nucname_id, hg],
      findA_insertA_self _ _ _ _⟩

/-- Claim C5 witness: a concrete excited state 10010001 absent from the
loaded table takes the ground-state value and is cached afterwards. -/
theorem atomic_mass_excited_ground_witness :
    ∃ v S2,
      atomic_mass (Except.error LoadErr.fileNotFound) ⟨[(10010000, 1)], []⟩
          ((10010001 : Int).tdiv 10000 * 10000) = (Res.ok v, S2) ∧
      atomic_mass (Except.error LoadErr.fileNotFound) ⟨[(10010000, 1)], []⟩ 10010001 =
        (Res.ok v, { S2 with atomic_mass_map := insertA ltInt S2.atomic_mass_map 10010001 v }) ∧
      findA (insertA ltInt S2.atomic_mass_map 10010001 v) 10010001 = some v :=
  atomic_mass_excited_ground (Except.error LoadErr.fileNotFound) ⟨[(10010000, 1)], []⟩ 10010001
    (by decide) (by decide) (by decide)

/-- Claim C9: for an excited-state id absent from a non-empty abundance
table, `natural_abund(id)` memoizes the recursively obtained ground-state
abundance into `atomic_mass_map` under the excited id - not into
`natural_abund_map` - so a later `atomic_mass(id)` call (with any dataset)
returns that abundance, while the abundance table still has no entry for the
id. -/
theorem natural_abund_memoizes_into_atomic_mass_map
    (src src2 : Except LoadErr (List atomic_mass_struct)) (S : AMState) (nuc : Int)
    (h1 : findA S.natural_abund_map nuc = none)
    (h2 : S.natural_abund_map ≠ [])
    (h3 : 0 < nuc.tmod 10000) :
    ∃ v S2, natural_abund src S ((nuc.tdiv 10000) * 10000) = (Res.ok v, S2) ∧
      natural_abund src S nuc =
        (Res.ok v, { S2 with atomic_mass_map := insertA ltInt S2.atomic_mass_map nuc v }) ∧
      findA (insertA ltInt S2.atomic_mass_map nuc v) nuc = some v ∧
      findA S2.natural_abund_map nuc = none ∧
      atomic_mass src2 { S2 with atomic_mass_map := insertA ltInt S2.atomic_mass_map nuc v }
          nuc =
        (Res.ok v, { S2 with atomic_mass_map := insertA ltInt S2.atomic_mass_map nuc v }) := by
  have hg : ((nuc.tdiv 10000) * 10000).tmod 10000 = 0 := Int.mul_tmod_left _ _
  have hne : (nuc.tdiv 10000) * 10000 ≠ nuc := by
    intro heq
    rw [← heq] at h3
    omega
  cases hf : findA S.natural_abund_map ((nuc.tdiv 10000) * 10000) with
  | some w =>
    have hground : natural_abund src S ((nuc.tdiv 10000) * 10000) = (Res.ok w, S) := by
      simp [natural_abund, natural_abundF, hf]
    refine ⟨w, S, hground,
      by simp [natural_abund, natural_abundF, h1, h2, h3, hf, nucname_id],
      findA_insertA_self _ _ _ _, h1, ?_⟩
    have hfound : findA (insertA ltInt S.atomic_mass_map nuc w) nuc = some w :=
      findA_insertA_self _ _ _ _
    simp [atomic_mass, atomic_massF, hfound]
  | none =>
    have hground : natural_abund src S ((nuc.tdiv 10000) * 10000) =
        (Res.ok 0, AMState.mk S.atomic_mass_map
          (insertA ltInt S.natural_abund_map ((nuc.tdiv 10000) * 10000) 0)) := by
      simp [natural_abund, natural_abundF, hf, h2, nucname_id, hg]
    refine ⟨0, _, hground,
      by simp [natural_abund, natural_abundF, h1, h2, h3, hf, nucname_id, hg],
      findA_insertA_self _ _ _ _, ?_, ?_⟩
    · rw [findA_insertA_ne ltInt S.natural_abund_map _ _ 0 hne]
      exact h1
    · have hfound : findA (insertA ltInt S.atomic_mass_map nuc (0 : ℚ)) nuc = some 0 :=
        findA_insertA_self _ _ _ _
      simp [atomic_mass, atomic_massF, hfound]

/-- Claim C9 witness: concrete excited id 922350001 absent from the loaded
abundance table; the ground abundance 72 lands in the atomic-mass cache. -/
theorem natural_abund_memoizes_into_atomic_mass_map_witness :
    ∃ v S2,
      natural_abund (Except.error LoadErr.fileNotFound) ⟨[], [(922350000, 72)]⟩
          ((922350001 : Int).tdiv 10000 * 10000) = (Res.ok v, S2) ∧
      natural_abund (Except.error LoadErr.fileNotFound) ⟨[], [(922350000, 72)]⟩ 922350001 =
        (Res.ok v, { S2 with atomic_mass_map := insertA ltInt S2.atomic_mass_map 922350001 v }) ∧
      findA (insertA ltInt S2.atomic_mass_map 922350001 v) 922350001 = some v ∧
      findA S2.natural_abund_map 922350001 = none ∧
      atomic_mass (Except.ok [])
          { S2 with atomic_mass_map := insertA ltInt S2.atomic_mass_map 922350001 v } 922350001 =
        (Res.ok v, { S2 with atomic_mass_map := insertA ltInt S2.atomic_mass_map 922350001 v }) :=
  natural_abund_memoizes_into_atomic_mass_map (Except.error LoadErr.fileNotFound)
    (Except.ok []) ⟨[], [(922350000, 72)]⟩ 922350001 (by decide) (by decide) (by decide)

/-- Claim C8 counterexample: the excited id 922350001 is absent from the
loaded abundance table, yet `natural_abund` returns the ground state's
abundance 72, not 0.0 - the claim fails as universally stated. -/
theorem natural_abund_absent_counterexample :
    (natural_abund (Except.error LoadErr.fileNotFound) ⟨[], [(922350000, 72)]⟩ 922350001).1 =
      Res.ok 72 ∧ (72 : ℚ) ≠ 0 := by
  constructor
  · decide
  · decide

/-- Claim C8 as amended: for an id absent from the non-empty (loaded)
abundance table whose ground-state id is also absent - in particular for any
absent ground-state id - `natural_abund` returns exactly 0.0. -/
theorem natural_abund_absent_zero (src : Except LoadErr (List atomic_mass_struct))
    (S : AMState) (nuc : Int)
    (h2 : S.natural_abund_map ≠ [])
    (h1 : findA S.natural_abund_map nuc = none)
    (h1g : findA S.natural_abund_map ((nuc.tdiv 10000) * 10000) = none) :
    (natural_abund src S nuc).1 = Res.ok 0 := by
  have hg : ((nuc.tdiv 10000) * 10000).tmod 10000 = 0 := Int.mul_tmod_left _ _
  by_cases h3 : 0 < nuc.tmod 10000
  · simp [natural_abund, natural_abundF, h1, h2, h3, h1g, nucname_id, hg]
  · simp [natural_abund, natural_abundF, h1, h2, h3, nucname_id]

/-- Claim C8 witness: concrete ground id 10020000 and excited id 10020001
both absent from the loaded table give exactly 0.0. -/
theorem natural_abund_absent_zero_witness :
    (natural_abund (Except.error LoadErr.fileNotFound) ⟨[], [(922350000, 72)]⟩ 10020001).1 =
      Res.ok 0 :=
  natural_abund_absent_zero (Except.error LoadErr.fileNotFound) ⟨[], [(922350000, 72)]⟩
    10020001 (by decide) (by decide) (by decide)

/-- Claim C3 counterexample: with the dataset missing and the decay table
empty, `decay_const` propagates the load error to the caller instead of
swallowing it and returning the arithmetic fallback 0.0. -/
theorem decay_const_propagates_counterexample :
    (decay_const (Except.error LoadErr.fileNotFound) ⟨[], [], [], [], []⟩ 10010000).1 =
      Res.err LoadErr.fileNotFound ∧
    (decay_const (Except.error LoadErr.fileNotFound) ⟨[], [], [], [], []⟩ 10010000).1 ≠
      Res.ok 0 := by
  constructor
  · decide
  · decide

/-- Claim C3 as amended: when the bulk load fails on an empty table,
`decay_const`, `branch_ratio`, `decay_children` and `fpyield` all propagate
the load error to the caller (their loader calls are not wrapped in
try/catch), while `atomic_mass` and `natural_abund` swallow the failure and
fall through to their arithmetic fallbacks. -/
theorem load_error_propagation_asymmetry (e : LoadErr) (nuc : Int) (from_to : Int × Int)
    (source : Int) (get_error : Bool) (dS : DecayState) (fS : FPState) (aS : AMState)
    (hdc : dS.decay_const_map = []) (hbr : dS.branch_ratio_map = [])
    (hch : dS.decay_children_map = [])
    (hw : fS.wimsdfpy_data = []) (hn : fS.ndsfpy_data = [])
    (ham : aS.atomic_mass_map = []) (hna : aS.natural_abund_map = []) :
    (decay_const (Except.error e) dS nuc).1 = Res.err e ∧
    (branch_ratio (Except.error e) dS from_to).1 = Res.err e ∧
    (decay_children (Except.error e) dS nuc).1 = Res.err e ∧
    (fpyield (Except.error e) (Except.error e) fS from_to source get_error).1 = Res.err e ∧
    (atomic_mass (Except.error e) aS nuc).1 =
      Res.ok (((nuc.tdiv 10000).tmod 1000 : Int) : ℚ) ∧
    (natural_abund (Except.error e) aS nuc).1 = Res.ok 0 := by
  have hg : ((nuc.tdiv 10000) * 10000).tmod 10000 = 0 := Int.mul_tmod_left _ _
  refine ⟨?_, ?_, ?_, ?_, ?_, ?_⟩
  · simp [decay_const, decay_constF, findA, hdc]
  · simp [branch_ratio, branch_ratioF, findA, hbr]
  · simp [decay_children, decay_childrenF, findA, hch]
  · by_cases hs : source = 0
    · simp [fpyield, fpyieldF, findA, hw, hn, hs]
    · simp [fpyield, fpyieldF, findA, hw, hn, hs]
  · by_cases h3 : 0 < nuc.tmod 10000
    · simp [atomic_mass, atomic_massF, findA, ham, nucname_id, h3, hg]
    · simp [atomic_mass, atomic_massF, findA, ham, nucname_id, h3]
  · by_cases h3 : 0 < nuc.tmod 10000
    · simp [natural_abund, natural_abundF, findA, hna, nucname_id, h3, hg]
    · simp [natural_abund, natural_abundF, findA, hna, nucname_id, h3]

/-- Claim C3 witness: the asymmetry at a concrete missing-file error, nuclide
and pair, starting from the empty process-start tables. -/
theorem load_error_propagation_asymmetry_witness :
    (decay_const (Except.error LoadErr.fileNotFound) ⟨[], [], [], [], []⟩ 922350001).1 =
      Res.err LoadErr.fileNotFound ∧
    (branch_ratio (Except.error LoadErr.fileNotFound) ⟨[], [], [], [], []⟩
        (922350000, 551370000)).1 = Res.err LoadErr.fileNotFound ∧
    (decay_children (Except.error LoadErr.fileNotFound) ⟨[], [], [], [], []⟩ 922350001).1 =
      Res.err LoadErr.fileNotFound ∧
    (fpyield (Except.error LoadErr.fileNotFound) (Except.error LoadErr.fileNotFound) ⟨[], []⟩
        (922350000, 551370000) 1 false).1 = Res.err LoadErr.fileNotFound ∧
    (atomic_mass (Except.error LoadErr.fileNotFound) ⟨[], []⟩ 922350001).1 =
      Res.ok ((((922350001 : Int).tdiv 10000).tmod 1000 : Int) : ℚ) ∧
    (natural_abund (Except.error LoadErr.fileNotFound) ⟨[], []⟩ 922350001).1 = Res.ok 0 :=
  load_error_propagation_asymmetry LoadErr.fileNotFound 922350001 (922350000, 551370000) 1
    false ⟨[], [], [], [], []⟩ ⟨[], []⟩ ⟨[], []⟩ rfl rfl rfl rfl rfl rfl rfl

/-- Claim C2: refuted on the code.  With the level table initially empty and
the dataset holding level 5 for nuclide 10010000, the first
`state_energy(10010000)` call bulk-loads but DISCARDS the retry's result
(the source lacks the `return` its sibling `half_life` has) and returns 0.0;
the immediately following identical call returns 5 - the accessor is not
idempotent. -/
theorem state_energy_not_idempotent :
    (state_energy (Except.ok [⟨10010000, 5, 7, 0⟩]) [] 10010000).1 = Res.ok 0 ∧
    (state_energy (Except.ok [⟨10010000, 5, 7, 0⟩])
        (state_energy (Except.ok [⟨10010000, 5, 7, 0⟩]) [] 10010000).2 10010000).1 =
      Res.ok 5 ∧
    Res.ok (0 : ℚ) ≠ Res.ok (5 : ℚ) := by
  refine ⟨?_, ?_, ?_⟩
  · decide
  · decide
  · decide

/-- Claim C4 counterexample: for id 922351000 (state field 1000) the claim
prescribes scanning the ground-state block [922350000, 922359999], which
contains no entry, so it prescribes the result 0; the code zeroes only the
last three digits, scans [922351000, 922360999], and returns the entry
922360000 found there. -/
theorem metastable_id_ground_prefix_counterexample :
    (metastable_id (Except.error LoadErr.fileNotFound)
        [(922360000, ⟨922360000, 0, 0, 1⟩)] 922351000 1).1 = Res.ok 922360000 ∧
    metastable_id_claim [(922360000, ⟨922360000, 0, 0, 1⟩)] 922351000 1 = 0 ∧
    (922360000 : Int) ≠ 0 := by
  refine ⟨?_, ?_, ?_⟩
  · decide
  · decide
  · decide

/-- Claim C4 as amended: for every m >= 1 on a loaded (non-empty, sorted)
level table, `metastable_id(id, m)` zeroes the last THREE decimal digits of
`id` (which is the ground-state prefix exactly when the 4-digit state field
is below 1000), scans in ascending ID order exactly the entries in the
10,000-wide block starting there, returns the `nuc_id` field of the first
entry whose metastable ordinal equals m, and 0 if none matches. -/
theorem metastable_id_scans_thousand_block (src : Except LoadErr (List level_struct))
    (ld : List (Int × level_struct)) (nuc m : Int)
    (hs : ld.Pairwise (fun a b => a.1 < b.1)) (hne : ld ≠ []) (hm : m ≠ 0) :
    metastable_id src ld nuc m =
      (Res.ok (metastable_block_scan ld ((nuc.tdiv 1000) * 1000) m), ld) := by
  have hm2 : (m == (0 : Int)) = false := beq_false_of_ne hm
  have hE : ld.isEmpty = false := by
    cases ld with
    | nil => exact absurd rfl hne
    | cons kv t => rfl
  simp only [metastable_id, hm2, Bool.false_eq_true, if_false, hE]
  rw [dropWhile_takeWhile_eq_filter ((nuc.tdiv 1000) * 1000) ((nuc.tdiv 1000) * 1000 + 9999)
    ld hs]
  unfold metastable_block_scan
  cases hfind : (ld.filter (fun kv =>
      decide ((nuc.tdiv 1000) * 1000 ≤ kv.1) &&
        decide (kv.1 ≤ (nuc.tdiv 1000) * 1000 + 9999))).find?
      (fun kv => kv.2.metastable == (m : ℚ)) with
  | some kv => simp [hfind]
  | none => simp [hfind]

/-- Claim C4 amended witness: on a concrete sorted two-entry table the code
returns the first metastable match of the scanned block. -/
theorem metastable_id_scans_thousand_block_witness :
    metastable_id (Except.error LoadErr.fileNotFound)
        [(922350001, ⟨922350001, 0, 0, 1⟩), (922360000, ⟨922360000, 0, 0, 1⟩)] 922350001 1 =
      (Res.ok (metastable_block_scan
          [(922350001, ⟨922350001, 0, 0, 1⟩), (922360000, ⟨922360000, 0, 0, 1⟩)]
          (((922350001 : Int).tdiv 1000) * 1000) 1),
        [(922350001, ⟨922350001, 0, 0, 1⟩), (922360000, ⟨922360000, 0, 0, 1⟩)]) :=
  metastable_id_scans_thousand_block (Except.error LoadErr.fileNotFound)
    [(922350001, ⟨922350001, 0, 0, 1⟩), (922360000, ⟨922360000, 0, 0, 1⟩)] 922350001 1
    (by decide) (by decide) (by decide)

/-- Claim C6: for an id absent from the non-empty (loaded, sorted)
coherent-scattering-length table, `b_coherent` returns the value of the
first entry in ascending key order whose mass number matches, else the first
whose atomic number matches (mass-number matches always preferred), else the
complex zero, and memoizes the chosen value under the id. -/
theorem b_coherent_fallback_precedence (src : Except LoadErr (List scattering_lengths_struct))
    (S : ScatState) (nuc : Int)
    (hs : S.b_coherent_map.Pairwise (fun a b => a.1 < b.1))
    (h1 : findA S.b_coherent_map nuc = none)
    (h2 : S.b_coherent_map ≠ []) :
    b_coherent src S nuc =
      (Res.ok (b_coherent_claim_value S.b_coherent_map nuc),
        { S with b_coherent_map :=
            insertA ltInt S.b_coherent_map nuc (b_coherent_claim_value S.b_coherent_map nuc) }) ∧
    findA (insertA ltInt S.b_coherent_map nuc (b_coherent_claim_value S.b_coherent_map nuc))
        nuc = some (b_coherent_claim_value S.b_coherent_map nuc) := by
  have e1 := scan_first_eq_find (fun k => nucname_anum k == nucname_anum nuc) S.b_coherent_map
  have e2 := scan_first_eq_find (fun k => nucname_znum k == nucname_znum nuc) S.b_coherent_map
  refine ⟨?_, findA_insertA_self _ _ _ _⟩
  cases hA : S.b_coherent_map.find? (fun kv => nucname_anum kv.1 == nucname_anum nuc) with
  | some kva =>
    rw [hA] at e1
    simp [b_coherent, b_coherentF, h1, h2, nucname_id, e1, b_coherent_claim_value, hA]
  | none =>
    rw [hA] at e1
    cases hZ : S.b_coherent_map.find? (fun kv => nucname_znum kv.1 == nucname_znum nuc) with
    | some kvz =>
      rw [hZ] at e2
      simp [b_coherent, b_coherentF, h1, h2, nucname_id, e1, e2, b_coherent_claim_value, hA, hZ]
    | none =>
      rw [hZ] at e2
      simp [b_coherent, b_coherentF, h1, h2, nucname_id, e1, e2, b_coherent_claim_value, hA, hZ]

/-- Claim C6 witness: with one entry matching only by mass number (10120000,
A=12) and one matching only by atomic number (60130000, Z=6), the absent
target 60120000 receives the mass-number match's value. -/
theorem b_coherent_fallback_precedence_witness :
    b_coherent (Except.error LoadErr.fileNotFound)
        ⟨[(10120000, ⟨3, 4⟩), (60130000, ⟨5, 6⟩)], []⟩ 60120000 =
      (Res.ok (b_coherent_claim_value [(10120000, ⟨3, 4⟩), (60130000, ⟨5, 6⟩)] 60120000),
        { b_coherent_map := insertA ltInt [(10120000, ⟨3, 4⟩), (60130000, ⟨5, 6⟩)] 60120000
            (b_coherent_claim_value [(10120000, ⟨3, 4⟩), (60130000, ⟨5, 6⟩)] 60120000),
          b_incoherent_map := ([] : List (Int × complex_t)) }) ∧
    findA (insertA ltInt [(10120000, ⟨3, 4⟩), (60130000, ⟨5, 6⟩)] 60120000
        (b_coherent_claim_value [(10120000, ⟨3, 4⟩), (60130000, ⟨5, 6⟩)] 60120000)) 60120000 =
      some (b_coherent_claim_value [(10120000, ⟨3, 4⟩), (60130000, ⟨5, 6⟩)] 60120000) :=
  b_coherent_fallback_precedence (Except.error LoadErr.fileNotFound)
    ⟨[(10120000, ⟨3, 4⟩), (60130000, ⟨5, 6⟩)], []⟩ 60120000 (by decide) (by decide) (by decide)

/-- Claim C7: with both yield tables loaded (non-empty) and the pair absent
from the table selected by `source`, `fpyield` returns 0.0 and memoizes 0.0
under the pair into the WIMS table specifically - for every source and
`get_error` value - leaving the NDS table unchanged. -/
theorem fpyield_fallback_wims_memoization (srcW : Except LoadErr (List wimsdfpy_struct))
    (srcN : Except LoadErr (List ndsfpy_struct)) (S : FPState) (from_to : Int × Int)
    (source : Int) (get_error : Bool)
    (hw : S.wimsdfpy_data ≠ []) (hn : S.ndsfpy_data ≠ [])
    (h0 : source = 0 → findA S.wimsdfpy_data from_to = none)
    (h1 : source ≠ 0 → findA S.ndsfpy_data from_to = none) :
    fpyield srcW srcN S from_to source get_error =
      (Res.ok 0, { S with wimsdfpy_data := insertA ltPII S.wimsdfpy_data from_to 0 }) ∧
    (fpyield srcW srcN S from_to source get_error).2.ndsfpy_data = S.ndsfpy_data := by
  have heq : fpyield srcW srcN S from_to source get_error =
      (Res.ok 0, { S with wimsdfpy_data := insertA ltPII S.wimsdfpy_data from_to 0 }) := by
    by_cases hsrc : source = 0
    · simp [fpyield, fpyieldF, hsrc, h0 hsrc, hw, hn]
    · have hb : (source == (0 : Int)) = false := beq_false_of_ne hsrc
      simp [fpyield, fpyieldF, hb, hsrc, h1 hsrc, hw, hn]
  exact ⟨heq, by rw [heq]⟩

/-- Claim C7 witness: a richer-table query (source 2, with error flag) whose
pair is absent still memoizes its synthesized 0.0 into the WIMS table and
leaves the NDS table unchanged. -/
theorem fpyield_fallback_wims_memoization_witness :
    fpyield (Except.error LoadErr.fileNotFound) (Except.error LoadErr.fileNotFound)
        ⟨[((922350000, 400930000), 1)],
          [((922350000, 541350000), ⟨6, 1, 6, 1, 6, 1⟩)]⟩
        (922350000, 551370000) 2 true =
      (Res.ok 0,
        { wimsdfpy_data := insertA ltPII [((922350000, 400930000), 1)] (922350000, 551370000) 0,
          ndsfpy_data := [((922350000, 541350000), ⟨6, 1, 6, 1, 6, 1⟩)] }) ∧
    (fpyield (Except.error LoadErr.fileNotFound) (Except.error LoadErr.fileNotFound)
        ⟨[((922350000, 400930000), 1)],
          [((922350000, 541350000), ⟨6, 1, 6, 1, 6, 1⟩)]⟩
        (922350000, 551370000) 2 true).2.ndsfpy_data =
      [((922350000, 541350000), (⟨6, 1, 6, 1, 6, 1⟩ : ndsfpysub_struct))] :=
  fpyield_fallback_wims_memoization (Except.error LoadErr.fileNotFound)
    (Except.error LoadErr.fileNotFound)
    ⟨[((922350000, 400930000), 1)], [((922350000, 541350000), ⟨6, 1, 6, 1, 6, 1⟩)]⟩
    (922350000, 551370000) 2 true (by decide) (by decide) (fun h => by omega)
    (fun _ => by decide)

/-- Claim C10: on a loaded (non-empty) decay table, `decay_branch_ratios`
returns exactly the first components of `decay_half_lifes`: both project the
half_life field (`decay_branch_ratios` passes `offsetof(decay_struct,
half_life)`, source line 1172), and no element comes from the branch_ratio
field. -/
theorem decay_branch_ratios_eq_half_lifes_fst (src : Except LoadErr (List decay_struct))
    (d : List ((Int × Int) × decay_struct)) (parent : Int) (hne : d ≠ []) :
    ∃ l, decay_half_lifes src d parent = (Res.ok l, d) ∧
      decay_branch_ratios src d parent = (Res.ok (l.map Prod.fst), d) := by
  cases hrest : d.dropWhile (fun kv => ltPII kv.1 ((parent : Int), (0 : Int))) with
  | nil =>
    refine ⟨[], ?_, ?_⟩ <;>
      simp [decay_half_lifes, decay_branch_ratios, data_access_decay_parent, hne, hrest]
  | cons kv0 tl =>
    refine ⟨(List.replicate
        ((kv0 :: tl).takeWhile (fun kv => !ltPII (parent, INT9999999999) kv.1)).length
        kv0.2.half_life).zip
      (List.replicate
        ((kv0 :: tl).takeWhile (fun kv => !ltPII (parent, INT9999999999) kv.1)).length
        kv0.2.half_life_error), ?_, ?_⟩
    · simp [decay_half_lifes, decay_branch_ratios, data_access_decay_parent, hne, hrest]
    · rw [List.map_fst_zip _ _ (by simp)]
      simp [decay_half_lifes, decay_branch_ratios, data_access_decay_parent, hne, hrest]

/-- Claim C10 witness: a concrete two-record decay table for parent 10. -/
theorem decay_branch_ratios_eq_half_lifes_fst_witness :
    ∃ l, decay_half_lifes (Except.error LoadErr.fileNotFound)
        [((10, 8), ⟨10, 8, "A", 3, 4, 5, 0, 0, 0, 0⟩),
          ((10, 9), ⟨10, 9, "B", 6, 7, 8, 0, 0, 0, 0⟩)] 10 = (Res.ok l,
        [((10, 8), ⟨10, 8, "A", 3, 4, 5, 0, 0, 0, 0⟩),
          ((10, 9), ⟨10, 9, "B", 6, 7, 8, 0, 0, 0, 0⟩)]) ∧
      decay_branch_ratios (Except.error LoadErr.fileNotFound)
        [((10, 8), ⟨10, 8, "A", 3, 4, 5, 0, 0, 0, 0⟩),
          ((10, 9), ⟨10, 9, "B", 6, 7, 8, 0, 0, 0, 0⟩)] 10 = (Res.ok (l.map Prod.fst),
        [((10, 8), ⟨10, 8, "A", 3, 4, 5, 0, 0, 0, 0⟩),
          ((10, 9), ⟨10, 9, "B", 6, 7, 8, 0, 0, 0, 0⟩)]) :=
  decay_branch_ratios_eq_half_lifes_fst (Except.error LoadErr.fileNotFound)
    [((10, 8), ⟨10, 8, "A", 3, 4, 5, 0, 0, 0, 0⟩),
      ((10, 9), ⟨10, 9, "B", 6, 7, 8, 0, 0, 0, 0⟩)] 10 (by decide)

/-- Claim C1: refuted on the code.  For the loaded two-record gamma table
`gTable` (records with energies 1 and 2, errors 10 and 20, both keyed by
parent 10), `gamma_energy(10)` never returns the claimed list
[(1,10),(2,20)], whatever value the undefined `(int)DBL_MAX` conversion
takes: the range bounds swap the key components, and the loop body reads the
unmoved lower bound, so the result is either empty or the first record's
pair repeated. -/
theorem gamma_energy_first_record_bug (castDblMax : Int) :
    (gamma_energy castDblMax (Except.error LoadErr.fileNotFound) gTable 10).1 ≠
      Res.ok (gamma_energy_claim gTable 10) := by
  have hb1 : decide ((10 : ℚ) < 1) = false := by decide
  have hb2 : decide ((10 : ℚ) < 2) = false := by decide
  have claimval : gamma_energy_claim gTable 10 = [(1, 10), (2, 20)] := by decide
  rw [claimval]
  by_cases hc : castDblMax < 10
  · simp [gamma_energy, data_access_gamma_parent, gTable, gRow1, gRow2, ltPIQ, hc, hb1, hb2]
  · simp [gamma_energy, data_access_gamma_parent, gTable, gRow1, gRow2, ltPIQ, hc, hb1, hb2]
